import Mathlib

/-!
Shallow embedding of `src/repeatmasking_utils.py` (ensembl-anno repeat masking
utilities).  Files are modelled as lists of lines (the successive results of
`readline()`, without the final empty string that signals EOF); a missing file
is `Option.none`.  The Python `while line:` loops of the three parsers are
modelled with an explicit fuel parameter: an outcome of `diverge` for every
fuel value corresponds to non-termination of the Python loop.  Python floats
are modelled as rationals (all values compared by the code in scope are small
decimals, exactly representable in both).
-/

/-- Whitespace characters matched by Python `\s` and `str.split()` on ASCII
text: space, tab, newline, carriage return, vertical tab, form feed. -/
def isPySpace (c : Char) : Bool :=
  c = ' ' || c = '\t' || c = '\n' || c = '\r' || c = Char.ofNat 11 || c = Char.ofNat 12

/-- Accumulating scanner for `pySplit`: `cur` holds the characters of the
word in progress, in reverse. -/
def pyWords : List Char → List Char → List String
  | [], cur => if cur = [] then [] else [String.mk cur.reverse]
  | c :: rest, cur =>
    if isPySpace c then
      if cur = [] then pyWords rest [] else String.mk cur.reverse :: pyWords rest []
    else
      pyWords rest (c :: cur)

/-- Python `str.split()` with no separator: split on runs of whitespace,
dropping empty pieces (hence also leading/trailing whitespace). -/
def pySplit (s : String) : List String :=
  pyWords s.data []

/-- Numeric value of a list of decimal digit characters (empty list is 0). -/
def digitsVal (cs : List Char) : Nat :=
  cs.foldl (fun n c => 10 * n + (c.toNat - '0'.toNat)) 0

/-- Python `float(s)` on the plain decimal strings the TRF output contains:
`digits`, `digits.digits`, `digits.` or `.digits`.  Returns `none` where
`float()` would raise `ValueError` (no sign/exponent forms are modelled; the
code in scope never receives them). -/
def pyFloat (s : String) : Option ℚ :=
  let cs := s.data
  let ip := cs.takeWhile Char.isDigit
  let rest := cs.dropWhile Char.isDigit
  match rest with
  | [] => if ip = [] then none else some (mkRat (digitsVal ip) 1)
  | '.' :: fp =>
    if fp.all Char.isDigit && !(ip = [] && fp = []) then
      some (mkRat (digitsVal ip * 10 ^ fp.length + digitsVal fp) (10 ^ fp.length))
    else
      none
  | _ => none

/-- `re.search(r"^\s*\d+\s+", line)` as a Boolean: optional leading
whitespace, then at least one digit, then at least one whitespace character. -/
def rmCandidate (l : String) : Bool :=
  let cs1 := l.data.dropWhile isPySpace
  match cs1 with
  | [] => false
  | c :: _ =>
    c.isDigit &&
      (match cs1.dropWhile Char.isDigit with
       | [] => false
       | d :: _ => isPySpace d)

/-- `re.search(r"^\d+", line)` as a Boolean: the line starts with a digit. -/
def trfCandidate (l : String) : Bool :=
  match l.data with
  | [] => false
  | c :: _ => c.isDigit

/-- `if results[-1] == "*": results.pop()` — drop a trailing star token.
The call sites guarantee `results` is nonempty (the candidate regex found a
digit token), so modelling the empty case as a no-op is unreachable. -/
def starDrop (results : List String) : List String :=
  if results.getLast? = some "*" then results.dropLast else results

/-- Attempt to match the regex `(\d+)\ - (\d+)` at the start of `cs`:
a maximal nonempty digit run, the literal " - ", a nonempty digit run. -/
def dustMatchAt (cs : List Char) : Option (Nat × Nat) :=
  let d1 := cs.takeWhile Char.isDigit
  if d1 = [] then none
  else
    match cs.dropWhile Char.isDigit with
    | ' ' :: '-' :: ' ' :: rest =>
      let d2 := rest.takeWhile Char.isDigit
      if d2 = [] then none else some (digitsVal d1, digitsVal d2)
    | _ => none

/-- `re.search(r"(\d+)\ - (\d+)", line)`: leftmost match, returning the two
captured integers (`int(group(1))`, `int(group(2))`). -/
def dustSearch : List Char → Option (Nat × Nat)
  | [] => none
  | c :: rest =>
    match dustMatchAt (c :: rest) with
    | some r => some r
    | none => dustSearch rest

/-- Python truthiness test `not x` for an optional string parameter:
true for `None` and for the empty string. -/
def pyFalsy (s : Option String) : Bool :=
  match s with
  | none => true
  | some t => t = ""

/-- The string value of an optional string parameter (used only where the
parameter has been established truthy). -/
def pyVal (s : Option String) : String := s.getD ""

/-- Outcome of running one of the `create_*_gtf` parse passes:
the raw-output file was missing (Python `FileNotFoundError` from `open`),
the loop ran out of fuel (for every fuel: the Python loop never terminates),
a runtime error such as `float()` raising `ValueError`, or normal completion
with the list of canonical records written to the per-slice file. -/
inductive Outcome (α : Type) where
  | fileNotFound : Outcome α
  | diverge : Outcome α
  | exn : Outcome α
  | ok : α → Outcome α
deriving Repr, DecidableEq

/-- Canonical record written by `create_repeatmasker_gtf`: one GTF line
`region  RepeatMasker  repeat  start  end  .  strand  .  attrs` with
attributes `repeat_id, repeat_name, repeat_class, repeat_start, repeat_end,
score`.  Field values are kept as the strings the code slices out. -/
structure RMRecord where
  region : String
  start : String
  end_ : String
  strand : String
  repeat_id : Nat
  repeat_name : String
  repeat_class : String
  repeat_start : String
  repeat_end : String
  score : String
deriving Repr, DecidableEq

/-- The record built from an accepted 15-field line in
`create_repeatmasker_gtf` (source lines 195-231): positional fields
score/start/end/strand/name/class, with the repeat-consensus pair taken from
positions 11/12 for strand `+` and from positions 13/12 with strand forced
to `-` otherwise. -/
def rmRecordOfFields (region : String) (results : List String) (repeat_count : Nat) :
    RMRecord :=
  let score := results.getD 0 ""
  let start := results.getD 5 ""
  let end_ := results.getD 6 ""
  let strand := results.getD 8 ""
  let repeat_name := results.getD 9 ""
  let repeat_class := results.getD 10 ""
  if strand = "+" then
    { region := region, start := start, end_ := end_, strand := strand,
      repeat_id := repeat_count, repeat_name := repeat_name,
      repeat_class := repeat_class, repeat_start := results.getD 11 "",
      repeat_end := results.getD 12 "", score := score }
  else
    { region := region, start := start, end_ := end_, strand := "-",
      repeat_id := repeat_count, repeat_name := repeat_name,
      repeat_class := repeat_class, repeat_start := results.getD 13 "",
      repeat_end := results.getD 12 "", score := score }

/-- The `while line:` loop of `create_repeatmasker_gtf` (source lines
186-234). `lines` is the unread remainder of the file; `repeat_count` and
`acc` are the counter and the records written so far.  Note the faithful
modelling of the `continue` on a candidate line that does not split into 15
fields: the line is NOT consumed (the Python `continue` skips the
`readline()` at the bottom of the loop), so only fuel decreases. -/
def rmLoop (region : String) : Nat → List String → Nat → List RMRecord →
    Outcome (List RMRecord)
  | _, [], _, acc => Outcome.ok acc.reverse
  | 0, _ :: _, _, _ => Outcome.diverge
  | fuel + 1, l :: rest, repeat_count, acc =>
    if l = "" then Outcome.ok acc.reverse
    else if rmCandidate l then
      let results := starDrop (pySplit l)
      if ¬ results.length = 15 then
        rmLoop region fuel (l :: rest) repeat_count acc
      else
        rmLoop region fuel rest (repeat_count + 1)
          (rmRecordOfFields region results repeat_count :: acc)
    else
      rmLoop region fuel rest repeat_count acc

/-- `create_repeatmasker_gtf` (source lines 178-236): open the raw
RepeatMasker output (error when missing), run the parse loop with the
counter starting at 1, and return the records written to the per-slice
canonical file. -/
def create_repeatmasker_gtf (region_name : String) (fuel : Nat)
    (repeatmasker_output_file : Option (List String)) : Outcome (List RMRecord) :=
  match repeatmasker_output_file with
  | none => Outcome.fileNotFound
  | some lines => rmLoop region_name fuel lines 1 []

/-- Canonical record written by `create_trf_gtf`: one GTF line with strand
always `+` and attributes `repeat_id, score, repeat_consensus`. -/
structure TRFRecord where
  region : String
  start : String
  end_ : String
  strand : String
  repeat_id : Nat
  score : ℚ
  repeat_consensus : String
deriving Repr, DecidableEq

/-- The acceptance heuristic of `create_trf_gtf` (source lines 490-492). -/
def trfAccept (period copy_number percent_matches score : ℚ) : Prop :=
  (score < 50 ∧ percent_matches ≥ 80 ∧ copy_number > 2 ∧ period < 10) ∨
    (copy_number ≥ 2 ∧ percent_matches ≥ 70 ∧ score ≥ 50)

instance (period copy_number percent_matches score : ℚ) :
    Decidable (trfAccept period copy_number percent_matches score) := by
  unfold trfAccept
  infer_instance

/-- The `while line:` loop of `create_trf_gtf` (source lines 477-510), with
the same faithful `continue` modelling as `rmLoop`: a candidate line that
does not split into 15 fields is not consumed.  `float()` failure on fields
2/3/5/7 is an `exn` outcome. -/
def trfLoop (region : String) : Nat → List String → Nat → List TRFRecord →
    Outcome (List TRFRecord)
  | _, [], _, acc => Outcome.ok acc.reverse
  | 0, _ :: _, _, _ => Outcome.diverge
  | fuel + 1, l :: rest, repeat_count, acc =>
    if l = "" then Outcome.ok acc.reverse
    else if trfCandidate l then
      let results := pySplit l
      if ¬ results.length = 15 then
        trfLoop region fuel (l :: rest) repeat_count acc
      else
        match pyFloat (results.getD 2 ""), pyFloat (results.getD 3 ""),
          pyFloat (results.getD 5 ""), pyFloat (results.getD 7 "") with
        | some period, some copy_number, some percent_matches, some score =>
          if trfAccept period copy_number percent_matches score then
            trfLoop region fuel rest (repeat_count + 1)
              ({ region := region, start := results.getD 0 "",
                 end_ := results.getD 1 "", strand := "+",
                 repeat_id := repeat_count, score := score,
                 repeat_consensus := results.getD 13 "" } :: acc)
          else
            trfLoop region fuel rest repeat_count acc
        | _, _, _, _ => Outcome.exn
    else
      trfLoop region fuel rest repeat_count acc

/-- `create_trf_gtf` (source lines 471-512). -/
def create_trf_gtf (region_name : String) (fuel : Nat)
    (trf_output_file : Option (List String)) : Outcome (List TRFRecord) :=
  match trf_output_file with
  | none => Outcome.fileNotFound
  | some lines => trfLoop region_name fuel lines 1 []

/-- Canonical record written by `create_dust_gtf`: one GTF line with strand
always `+` and `repeat_id` as the only attribute. -/
structure DustRecord where
  region : String
  start : Nat
  end_ : Nat
  strand : String
  repeat_id : Nat
deriving Repr, DecidableEq

/-- The `while line:` loop of `create_dust_gtf` (source lines 327-345).
There is no `continue` here, so the loop consumes one line per iteration and
needs no fuel. -/
def dustLoop (region : String) : List String → Nat → List DustRecord →
    List DustRecord
  | [], _, acc => acc.reverse
  | l :: rest, repeat_count, acc =>
    if l = "" then acc.reverse
    else
      match dustSearch l.data with
      | some (a, b) =>
        dustLoop region rest (repeat_count + 1)
          ({ region := region, start := a + 1, end_ := b + 1, strand := "+",
             repeat_id := repeat_count } :: acc)
      | none => dustLoop region rest repeat_count acc

/-- `create_dust_gtf` (source lines 321-347). -/
def create_dust_gtf (region_name : String)
    (dust_output_file : Option (List String)) : Outcome (List DustRecord) :=
  match dust_output_file with
  | none => Outcome.fileNotFound
  | some lines => Outcome.ok (dustLoop region_name lines 1 [])

/-- `os.remove(p)` on a file-existence map: the path no longer exists.
(The call sites guarded by `os.path.exists` are modelled with an explicit
`if`; the unguarded ones operate on files the worker itself created.) -/
def osRemove (fs : String → Bool) (p : String) : String → Bool :=
  fun q => if q = p then false else fs q

/-- The cleanup block of `multiprocess_repeatmasker` (source lines 149-175):
the derived per-slice paths, then `os.remove(region_fasta_file_path)` and the
five existence-guarded removals exactly as written — note that the guarded
list removes `region_results_file_path` (the `.rm.gtf` canonical file) and
never touches `repeatmasker_output_file_path` (the raw `.out`). -/
def multiprocess_repeatmasker_cleanup (fs : String → Bool)
    (region_fasta_file_path : String) : String → Bool :=
  let region_results_file_path := region_fasta_file_path ++ ".rm.gtf"
  let repeatmasker_masked_file_path := region_fasta_file_path ++ ".masked"
  let repeatmasker_tbl_file_path := region_fasta_file_path ++ ".tbl"
  let repeatmasker_log_file_path := region_fasta_file_path ++ ".log"
  let repeatmasker_cat_file_path := region_fasta_file_path ++ ".cat"
  let fs1 := osRemove fs region_fasta_file_path
  let fs2 := if fs1 region_results_file_path then
    osRemove fs1 region_results_file_path else fs1
  let fs3 := if fs2 repeatmasker_masked_file_path then
    osRemove fs2 repeatmasker_masked_file_path else fs2
  let fs4 := if fs3 repeatmasker_tbl_file_path then
    osRemove fs3 repeatmasker_tbl_file_path else fs3
  let fs5 := if fs4 repeatmasker_log_file_path then
    osRemove fs4 repeatmasker_log_file_path else fs4
  if fs5 repeatmasker_cat_file_path then
    osRemove fs5 repeatmasker_cat_file_path else fs5

/-- The cleanup of `multiprocess_dust` (source lines 308, 317-318): remove
the raw `.dust` output and the input fasta; the `.dust.gtf` canonical file is
untouched. -/
def multiprocess_dust_cleanup (fs : String → Bool)
    (region_fasta_file_path : String) : String → Bool :=
  let dust_output_file_path := region_fasta_file_path ++ ".dust"
  osRemove (osRemove fs dust_output_file_path) region_fasta_file_path

/-- The cleanup of `multiprocess_trf` (source lines 461, 467-468): remove the
raw `.dat` output (fasta path + TRF parameter extension) and the input fasta;
the `.trf.gtf` canonical file is untouched. -/
def multiprocess_trf_cleanup (fs : String → Bool)
    (region_fasta_file_path trf_output_extension : String) : String → Bool :=
  let trf_output_file_path := region_fasta_file_path ++ trf_output_extension
  osRemove (osRemove fs trf_output_file_path) region_fasta_file_path

/-- A heap of Python list objects (addresses are indices), used to model the
aliasing behaviour of `list.copy()`, `list.append` and item assignment in the
per-slice workers. -/
abbrev Heap (α : Type) : Type := List (List α)

/-- Contents of the list object at address `a`. -/
def Heap.get {α : Type} (h : Heap α) (a : Nat) : List α :=
  List.getD h a []

/-- Allocate a fresh list object; returns the new heap and its address. -/
def Heap.alloc {α : Type} (h : Heap α) (xs : List α) : Heap α × Nat :=
  (h ++ [xs], List.length h)

/-- Overwrite the list object at address `a`. -/
def Heap.put {α : Type} (h : Heap α) (a : Nat) (xs : List α) : Heap α :=
  List.set h a xs

/-- Python `xs.copy()`: allocate a fresh list with the same elements. -/
def Heap.copy {α : Type} (h : Heap α) (a : Nat) : Heap α × Nat :=
  Heap.alloc h (Heap.get h a)

/-- Python `xs.append(x)`: in-place extension of the object at `a`. -/
def Heap.append1 {α : Type} (h : Heap α) (a : Nat) (x : α) : Heap α :=
  Heap.put h a (Heap.get h a ++ [x])

/-- Python `xs[i] = x`: in-place item assignment on the object at `a`. -/
def Heap.setItem {α : Type} (h : Heap α) (a : Nat) (i : Nat) (x : α) : Heap α :=
  Heap.put h a (List.set (Heap.get h a) i x)

/-- Command construction in `multiprocess_repeatmasker` (source lines
156-157): copy the shared template, then append the slice's fasta path.
Returns the heap after both operations and the address of the copy. -/
def multiprocess_repeatmasker_cmd (h : Heap String) (generic_repeatmasker_cmd : Nat)
    (region_fasta_file_path : String) : Heap String × Nat :=
  let p := Heap.copy h generic_repeatmasker_cmd
  (Heap.append1 p.1 p.2 region_fasta_file_path, p.2)

/-- Command construction in `multiprocess_dust` (source lines 310-311). -/
def multiprocess_dust_cmd (h : Heap String) (generic_dust_cmd : Nat)
    (region_fasta_file_path : String) : Heap String × Nat :=
  let p := Heap.copy h generic_dust_cmd
  (Heap.append1 p.1 p.2 region_fasta_file_path, p.2)

/-- Command construction in `multiprocess_trf` (source lines 462-463): copy
the shared template, then assign the slice's fasta path into slot 1 (the
template holds Python `None` there, modelled as `Option.none`). -/
def multiprocess_trf_cmd (h : Heap (Option String)) (generic_trf_cmd : Nat)
    (region_fasta_file_path : String) : Heap (Option String) × Nat :=
  let p := Heap.copy h generic_trf_cmd
  (Heap.setItem p.1 p.2 1 (some region_fasta_file_path), p.2)

/-- One unit of slice work `(region_name, start, end)` as produced by
`create_slice_ids`. -/
abbrev SliceId := String × Nat × Nat

/-- Observable outcome of a `run_*` orchestration entry point: either the
early return of the resume check (no slices computed, no workers dispatched,
no merge), or a full run carrying the generic command template that would be
shared with the workers and the list of dispatched slices.  `α` is the
element type of the command list (`Option String` for TRF, whose template
holds a `None` placeholder). -/
inductive RunOutcome (α : Type) where
  | skipped : RunOutcome α
  | ran : List α → List SliceId → RunOutcome α
deriving DecidableEq

/-- `run_repeatmasker_regions` (source lines 36-119), modelled up to the
collaborator interfaces: `file_exists` and `check_gtf_content` stand for
`os.path.exists` and the external `check_gtf_content`, and `slice_ids` for
the result of `get_seq_region_lengths` + `create_slice_ids` (neither defined
in this file of the repository).  Captures the parameter defaulting (lines
40-44), the resume check (lines 51-56) and the command-template construction
(lines 64-99), and reports which slices get dispatched. -/
def run_repeatmasker_regions (repeatmasker_path library species : Option String)
    (main_output_dir : String) (file_exists : String → Bool)
    (check_gtf_content : String → String → Nat) (slice_ids : List SliceId) :
    RunOutcome String :=
  let repeatmasker_path :=
    if pyFalsy repeatmasker_path then "RepeatMasker" else pyVal repeatmasker_path
  let library := if pyFalsy library then "homo" else pyVal library
  let repeatmasker_output_dir := main_output_dir ++ "/repeatmasker_output"
  let output_file := repeatmasker_output_dir ++ "/annotation.gtf"
  let proceed : RunOutcome String :=
    let generic_repeatmasker_cmd :=
      if library = "" then
        if pyFalsy species then
          [repeatmasker_path, "-nolow", "-species", "homo", "-engine",
            "crossmatch", "-dir", repeatmasker_output_dir]
        else
          [repeatmasker_path, "-nolow", "-species", pyVal species, "-engine",
            "crossmatch", "-dir", repeatmasker_output_dir]
      else
        [repeatmasker_path, "-nolow", "-lib", library, "-engine",
          "crossmatch", "-dir", repeatmasker_output_dir]
    RunOutcome.ran generic_repeatmasker_cmd slice_ids
  if file_exists output_file then
    if check_gtf_content output_file "repeat" > 0 then RunOutcome.skipped
    else proceed
  else proceed

/-- `run_dust_regions` (source lines 239-279), modelled like
`run_repeatmasker_regions`. -/
def run_dust_regions (dust_path : Option String) (main_output_dir : String)
    (file_exists : String → Bool) (check_gtf_content : String → String → Nat)
    (slice_ids : List SliceId) : RunOutcome String :=
  let dust_path := if pyFalsy dust_path then "dustmasker" else pyVal dust_path
  let dust_output_dir := main_output_dir ++ "/dust_output"
  let output_file := dust_output_dir ++ "/annotation.gtf"
  let proceed : RunOutcome String :=
    let generic_dust_cmd := [dust_path, "-in"]
    RunOutcome.ran generic_dust_cmd slice_ids
  if file_exists output_file then
    if check_gtf_content output_file "repeat" > 0 then RunOutcome.skipped
    else proceed
  else proceed

/-- `run_trf_repeats` (source lines 350-428), modelled like
`run_repeatmasker_regions`; the command template is a fixed parameter vector
with a `None` placeholder in slot 1 for the per-slice input path. -/
def run_trf_repeats (trf_path : Option String) (main_output_dir : String)
    (file_exists : String → Bool) (check_gtf_content : String → String → Nat)
    (slice_ids : List SliceId) : RunOutcome (Option String) :=
  let trf_path := if pyFalsy trf_path then "trf" else pyVal trf_path
  let trf_output_dir := main_output_dir ++ "/trf_output"
  let output_file := trf_output_dir ++ "/annotation.gtf"
  let proceed : RunOutcome (Option String) :=
    let generic_trf_cmd : List (Option String) :=
      [some trf_path, none, some "2", some "5", some "7", some "80",
        some "10", some "40", some "500", some "-d", some "-h"]
    RunOutcome.ran generic_trf_cmd slice_ids
  if file_exists output_file then
    if check_gtf_content output_file "repeat" > 0 then RunOutcome.skipped
    else proceed
  else proceed

/-- On a non-empty candidate line that does not split into 15 fields, one
iteration of the Masker parse loop consumes no input: only fuel decreases. -/
lemma rmLoop_continue (region l : String) (rest : List String)
    (fuel repeat_count : Nat) (acc : List RMRecord) (h1 : ¬ l = "")
    (h2 : rmCandidate l = true) (h3 : ¬ (starDrop (pySplit l)).length = 15) :
    rmLoop region (fuel + 1) (l :: rest) repeat_count acc =
      rmLoop region fuel (l :: rest) repeat_count acc := by
  simp [rmLoop, h1, h2, h3]

/-- A non-empty candidate line that does not split into 15 fields makes the
Masker parse loop diverge: no amount of fuel reaches a result. -/
lemma rmLoop_diverge (region l : String) (rest : List String)
    (repeat_count : Nat) (acc : List RMRecord) (h1 : ¬ l = "")
    (h2 : rmCandidate l = true) (h3 : ¬ (starDrop (pySplit l)).length = 15) :
    ∀ fuel, rmLoop region fuel (l :: rest) repeat_count acc = Outcome.diverge := by
  intro fuel
  induction fuel with
  | zero => rfl
  | succ n ih => rw [rmLoop_continue region l rest n repeat_count acc h1 h2 h3]; exact ih

/-- Same as `rmLoop_continue` for the TandemRepeat parse loop. -/
lemma trfLoop_continue (region l : String) (rest : List String)
    (fuel repeat_count : Nat) (acc : List TRFRecord) (h1 : ¬ l = "")
    (h2 : trfCandidate l = true) (h3 : ¬ (pySplit l).length = 15) :
    trfLoop region (fuel + 1) (l :: rest) repeat_count acc =
      trfLoop region fuel (l :: rest) repeat_count acc := by
  simp [trfLoop, h1, h2, h3]

/-- Same as `rmLoop_diverge` for the TandemRepeat parse loop. -/
lemma trfLoop_diverge (region l : String) (rest : List String)
    (repeat_count : Nat) (acc : List TRFRecord) (h1 : ¬ l = "")
    (h2 : trfCandidate l = true) (h3 : ¬ (pySplit l).length = 15) :
    ∀ fuel, trfLoop region fuel (l :: rest) repeat_count acc = Outcome.diverge := by
  intro fuel
  induction fuel with
  | zero => rfl
  | succ n ih => rw [trfLoop_continue region l rest n repeat_count acc h1 h2 h3]; exact ih

/-- C1: the claim that the Masker and TandemRepeat parse passes terminate on
every finite raw-output file and skip a candidate line with other than 15
fields is FALSE on the code: the `continue` at source lines 193 and 482 skips
the `readline()` at the bottom of the `while` loop, so a 14-field
(mid-line-truncated) candidate line is re-examined forever.  For every fuel
value both parse passes diverge on a file whose first line is such a
truncated line — the well-formed second line is never reached. -/
theorem masker_trf_truncated_line_loops_forever : ∀ fuel : Nat,
    create_repeatmasker_gtf "chr1" fuel
      (some ["239 29.4 2.0 0.0 chr1 1 100 (0) + AluYk2 SINE/Alu 2 98 (3)",
        "239 29.4 2.0 0.0 chr1 1 100 (0) + AluYk2 SINE/Alu 2 98 (3) 5"]) =
      Outcome.diverge ∧
    create_trf_gtf "chr1" fuel
      (some ["1 100 8 3.0 16 85 5 45 30 20 30 20 1.92 ACGT",
        "1 100 8 3.0 16 85 5 45 30 20 30 20 1.92 ACGT ACGTACGT"]) =
      Outcome.diverge := by
  intro fuel
  refine ⟨?_, ?_⟩
  · exact rmLoop_diverge "chr1" _ _ 1 [] (by decide) (by decide) (by decide) fuel
  · exact trfLoop_diverge "chr1" _ _ 1 [] (by decide) (by decide) (by decide) fuel

/-- C1 witness: the divergence evaluated at fuel 3. -/
theorem masker_trf_truncated_line_loops_forever_witness :
    create_repeatmasker_gtf "chr1" 3
      (some ["239 29.4 2.0 0.0 chr1 1 100 (0) + AluYk2 SINE/Alu 2 98 (3)",
        "239 29.4 2.0 0.0 chr1 1 100 (0) + AluYk2 SINE/Alu 2 98 (3) 5"]) =
      Outcome.diverge ∧
    create_trf_gtf "chr1" 3
      (some ["1 100 8 3.0 16 85 5 45 30 20 30 20 1.92 ACGT",
        "1 100 8 3.0 16 85 5 45 30 20 30 20 1.92 ACGT ACGTACGT"]) =
      Outcome.diverge :=
  masker_trf_truncated_line_loops_forever 3

/-- C3 counterexample: when the external tool produced no raw output file,
the Masker parse step does not silently emit zero canonical records — the
`open` at source line 182 raises `FileNotFoundError` (outcome
`fileNotFound`, not `ok []`). -/
theorem masker_parse_missing_output_raises :
    create_repeatmasker_gtf "chr1" 100 none = Outcome.fileNotFound ∧
    ¬ create_repeatmasker_gtf "chr1" 100 none = Outcome.ok [] := by
  decide

/-- C3 amended: for a failed tool invocation, the parse step silently emits
zero records exactly when the raw output file exists (e.g. empty); when the
raw output file is missing, the Masker and TandemRepeat parse steps instead
raise a file-not-found error (the LowComplexity worker pre-creates its raw
output file, so its parse step always has one). -/
theorem parse_silent_zero_requires_raw_file (region : String) (fuel : Nat) :
    create_repeatmasker_gtf region fuel (some []) = Outcome.ok [] ∧
    create_trf_gtf region fuel (some []) = Outcome.ok [] ∧
    create_dust_gtf region (some []) = Outcome.ok [] ∧
    create_repeatmasker_gtf region fuel none = Outcome.fileNotFound ∧
    create_trf_gtf region fuel none = Outcome.fileNotFound := by
  refine ⟨?_, ?_, rfl, rfl, rfl⟩ <;> (cases fuel <;> rfl)

/-- C3 witness: the amended statement evaluated at a concrete region and
fuel. -/
theorem parse_silent_zero_requires_raw_file_witness :
    create_repeatmasker_gtf "chr1" 2 (some []) = Outcome.ok [] ∧
    create_trf_gtf "chr1" 2 (some []) = Outcome.ok [] ∧
    create_dust_gtf "chr1" (some []) = Outcome.ok [] ∧
    create_repeatmasker_gtf "chr1" 2 none = Outcome.fileNotFound ∧
    create_trf_gtf "chr1" 2 none = Outcome.fileNotFound :=
  parse_silent_zero_requires_raw_file "chr1" 2

/-- A concrete post-parse file state for one Masker slice: the input fasta,
the raw RepeatMasker output, the canonical record file written by
`create_repeatmasker_gtf`, and the optional tool by-products. -/
def rmSliceFiles : String → Bool := fun p =>
  ["chr1.rs1.re1000000.fa", "chr1.rs1.re1000000.fa.out",
    "chr1.rs1.re1000000.fa.rm.gtf", "chr1.rs1.re1000000.fa.masked",
    "chr1.rs1.re1000000.fa.tbl", "chr1.rs1.re1000000.fa.log",
    "chr1.rs1.re1000000.fa.cat"].contains p

/-- A concrete post-parse file state for one LowComplexity slice. -/
def dustSliceFiles : String → Bool := fun p =>
  ["chr1.rs1.re1000000.fa", "chr1.rs1.re1000000.fa.dust",
    "chr1.rs1.re1000000.dust.gtf"].contains p

/-- A concrete post-parse file state for one TandemRepeat slice. -/
def trfSliceFiles : String → Bool := fun p =>
  ["chr1.rs1.re1000000.fa", "chr1.rs1.re1000000.fa.2.5.7.80.10.40.500.dat",
    "chr1.rs1.re1000000.trf.gtf"].contains p

/-- C2: the claim that every worker deletes all per-slice scratch and leaves
the canonical record file is FALSE for the Masker worker: evaluated on a
slice where all per-slice files exist, `multiprocess_repeatmasker`'s cleanup
(source lines 165-175) deletes the `.rm.gtf` canonical file and leaves the
raw `.out` scratch file on disk; the Dust and TRF workers do keep their
canonical files and delete their scratch. -/
theorem masker_cleanup_deletes_canonical_file :
    multiprocess_repeatmasker_cleanup rmSliceFiles "chr1.rs1.re1000000.fa"
      "chr1.rs1.re1000000.fa.rm.gtf" = false ∧
    multiprocess_repeatmasker_cleanup rmSliceFiles "chr1.rs1.re1000000.fa"
      "chr1.rs1.re1000000.fa.out" = true ∧
    multiprocess_repeatmasker_cleanup rmSliceFiles "chr1.rs1.re1000000.fa"
      "chr1.rs1.re1000000.fa" = false ∧
    multiprocess_repeatmasker_cleanup rmSliceFiles "chr1.rs1.re1000000.fa"
      "chr1.rs1.re1000000.fa.masked" = false ∧
    multiprocess_dust_cleanup dustSliceFiles "chr1.rs1.re1000000.fa"
      "chr1.rs1.re1000000.dust.gtf" = true ∧
    multiprocess_dust_cleanup dustSliceFiles "chr1.rs1.re1000000.fa"
      "chr1.rs1.re1000000.fa.dust" = false ∧
    multiprocess_dust_cleanup dustSliceFiles "chr1.rs1.re1000000.fa"
      "chr1.rs1.re1000000.fa" = false ∧
    multiprocess_trf_cleanup trfSliceFiles "chr1.rs1.re1000000.fa"
      ".2.5.7.80.10.40.500.dat" "chr1.rs1.re1000000.trf.gtf" = true ∧
    multiprocess_trf_cleanup trfSliceFiles "chr1.rs1.re1000000.fa"
      ".2.5.7.80.10.40.500.dat" "chr1.rs1.re1000000.fa.2.5.7.80.10.40.500.dat" = false ∧
    multiprocess_trf_cleanup trfSliceFiles "chr1.rs1.re1000000.fa"
      ".2.5.7.80.10.40.500.dat" "chr1.rs1.re1000000.fa" = false := by
  decide

/-- C4: if the tool family's final `annotation.gtf` already exists and
`check_gtf_content` reports at least one well-formed `repeat` feature line in
it, each of `run_repeatmasker_regions`, `run_dust_regions` and
`run_trf_repeats` returns immediately with outcome `skipped`: no command
template is built, no slices are dispatched, no merge happens. -/
theorem run_regions_skip_when_valid_output
    (repeatmasker_path dust_path trf_path library species : Option String)
    (main_output_dir : String) (file_exists : String → Bool)
    (check_gtf_content : String → String → Nat) (slice_ids : List SliceId)
    (h1 : file_exists (main_output_dir ++ "/repeatmasker_output" ++ "/annotation.gtf") = true)
    (h2 : check_gtf_content (main_output_dir ++ "/repeatmasker_output" ++ "/annotation.gtf") "repeat" > 0)
    (h3 : file_exists (main_output_dir ++ "/dust_output" ++ "/annotation.gtf") = true)
    (h4 : check_gtf_content (main_output_dir ++ "/dust_output" ++ "/annotation.gtf") "repeat" > 0)
    (h5 : file_exists (main_output_dir ++ "/trf_output" ++ "/annotation.gtf") = true)
    (h6 : check_gtf_content (main_output_dir ++ "/trf_output" ++ "/annotation.gtf") "repeat" > 0) :
    run_repeatmasker_regions repeatmasker_path library species main_output_dir
      file_exists check_gtf_content slice_ids = RunOutcome.skipped ∧
    run_dust_regions dust_path main_output_dir file_exists check_gtf_content
      slice_ids = RunOutcome.skipped ∧
    run_trf_repeats trf_path main_output_dir file_exists check_gtf_content
      slice_ids = RunOutcome.skipped := by
  refine ⟨?_, ?_, ?_⟩
  · simp [run_repeatmasker_regions, h1, h2]
  · simp [run_dust_regions, h3, h4]
  · simp [run_trf_repeats, h5, h6]

/-- C4 witness: the skip evaluated with concrete collaborators reporting an
existing output with one valid `repeat` line. -/
theorem run_regions_skip_when_valid_output_witness :
    run_repeatmasker_regions (some "RepeatMasker") (some "lib.fa") none "/out"
      (fun _ => true) (fun _ _ => 1) [("chr1", 1, 1000000)] = RunOutcome.skipped ∧
    run_dust_regions (some "dustmasker") "/out" (fun _ => true) (fun _ _ => 1)
      [("chr1", 1, 1000000)] = RunOutcome.skipped ∧
    run_trf_repeats (some "trf") "/out" (fun _ => true) (fun _ _ => 1)
      [("chr1", 1, 1000000)] = RunOutcome.skipped :=
  run_regions_skip_when_valid_output (some "RepeatMasker") (some "dustmasker")
    (some "trf") (some "lib.fa") none "/out" (fun _ => true) (fun _ _ => 1)
    [("chr1", 1, 1000000)] rfl (by decide) rfl (by decide) rfl (by decide)

/-- C5: on an accepted 15-field candidate line, the Masker parser emits one
record; when the strand field (0-indexed position 8) is `+` the record's
`repeat_start`/`repeat_end` come from positions 11/12 and the strand is `+`,
and for any other strand value they come from positions 13/12 with the
strand forced to `-`. -/
theorem masker_strand_field_selection (region l : String) (h1 : ¬ l = "")
    (h2 : rmCandidate l = true) (h3 : (starDrop (pySplit l)).length = 15) :
    ∃ r : RMRecord, rmLoop region 2 [l] 1 [] = Outcome.ok [r] ∧
      r = rmRecordOfFields region (starDrop (pySplit l)) 1 ∧
      (if (starDrop (pySplit l)).getD 8 "" = "+" then
        r.repeat_start = (starDrop (pySplit l)).getD 11 "" ∧
        r.repeat_end = (starDrop (pySplit l)).getD 12 "" ∧
        r.strand = "+"
      else
        r.repeat_start = (starDrop (pySplit l)).getD 13 "" ∧
        r.repeat_end = (starDrop (pySplit l)).getD 12 "" ∧
        r.strand = "-") := by
  refine ⟨rmRecordOfFields region (starDrop (pySplit l)) 1, ?_, rfl, ?_⟩
  · simp [rmLoop, h1, h2, h3]
  · split_ifs with h8 <;>
      · simp only [List.getD_eq_getElem?_getD] at h8
        simp [rmRecordOfFields, h8]

/-- C5 witness: the field selection evaluated on a concrete plus-strand line
and on the same line with strand `C`. -/
theorem masker_strand_field_selection_witness :
    (∃ r : RMRecord,
      rmLoop "chr1" 2 ["239 29.4 2.0 0.0 chr1 1 100 (0) + AluYk2 SINE/Alu 2 98 (3) 5"] 1 [] =
        Outcome.ok [r] ∧
      r = rmRecordOfFields "chr1"
        (starDrop (pySplit "239 29.4 2.0 0.0 chr1 1 100 (0) + AluYk2 SINE/Alu 2 98 (3) 5")) 1 ∧
      (if (starDrop (pySplit "239 29.4 2.0 0.0 chr1 1 100 (0) + AluYk2 SINE/Alu 2 98 (3) 5")).getD 8 "" = "+" then
        r.repeat_start = (starDrop (pySplit "239 29.4 2.0 0.0 chr1 1 100 (0) + AluYk2 SINE/Alu 2 98 (3) 5")).getD 11 "" ∧
        r.repeat_end = (starDrop (pySplit "239 29.4 2.0 0.0 chr1 1 100 (0) + AluYk2 SINE/Alu 2 98 (3) 5")).getD 12 "" ∧
        r.strand = "+"
      else
        r.repeat_start = (starDrop (pySplit "239 29.4 2.0 0.0 chr1 1 100 (0) + AluYk2 SINE/Alu 2 98 (3) 5")).getD 13 "" ∧
        r.repeat_end = (starDrop (pySplit "239 29.4 2.0 0.0 chr1 1 100 (0) + AluYk2 SINE/Alu 2 98 (3) 5")).getD 12 "" ∧
        r.strand = "-")) ∧
    (∃ r : RMRecord,
      rmLoop "chr1" 2 ["239 29.4 2.0 0.0 chr1 1 100 (0) C AluYk2 SINE/Alu 2 98 (3) 5"] 1 [] =
        Outcome.ok [r] ∧
      r = rmRecordOfFields "chr1"
        (starDrop (pySplit "239 29.4 2.0 0.0 chr1 1 100 (0) C AluYk2 SINE/Alu 2 98 (3) 5")) 1 ∧
      (if (starDrop (pySplit "239 29.4 2.0 0.0 chr1 1 100 (0) C AluYk2 SINE/Alu 2 98 (3) 5")).getD 8 "" = "+" then
        r.repeat_start = (starDrop (pySplit "239 29.4 2.0 0.0 chr1 1 100 (0) C AluYk2 SINE/Alu 2 98 (3) 5")).getD 11 "" ∧
        r.repeat_end = (starDrop (pySplit "239 29.4 2.0 0.0 chr1 1 100 (0) C AluYk2 SINE/Alu 2 98 (3) 5")).getD 12 "" ∧
        r.strand = "+"
      else
        r.repeat_start = (starDrop (pySplit "239 29.4 2.0 0.0 chr1 1 100 (0) C AluYk2 SINE/Alu 2 98 (3) 5")).getD 13 "" ∧
        r.repeat_end = (starDrop (pySplit "239 29.4 2.0 0.0 chr1 1 100 (0) C AluYk2 SINE/Alu 2 98 (3) 5")).getD 12 "" ∧
        r.strand = "-")) :=
  ⟨masker_strand_field_selection "chr1"
      "239 29.4 2.0 0.0 chr1 1 100 (0) + AluYk2 SINE/Alu 2 98 (3) 5"
      (by decide) (by decide) (by decide),
    masker_strand_field_selection "chr1"
      "239 29.4 2.0 0.0 chr1 1 100 (0) C AluYk2 SINE/Alu 2 98 (3) 5"
      (by decide) (by decide) (by decide)⟩

/-- C6: a 15-field candidate line of the TandemRepeat parser is emitted as a
canonical record if and only if
`(score < 50 ∧ percent_matches ≥ 80 ∧ copy_number > 2 ∧ period < 10) ∨
(copy_number ≥ 2 ∧ percent_matches ≥ 70 ∧ score ≥ 50)`; when the condition
fails the line yields no record. -/
theorem trf_filter_iff (region l : String) (h1 : ¬ l = "")
    (h2 : trfCandidate l = true) (h3 : (pySplit l).length = 15)
    (period copy_number percent_matches score : ℚ)
    (hp : pyFloat ((pySplit l).getD 2 "") = some period)
    (hc : pyFloat ((pySplit l).getD 3 "") = some copy_number)
    (hm : pyFloat ((pySplit l).getD 5 "") = some percent_matches)
    (hs : pyFloat ((pySplit l).getD 7 "") = some score) :
    (trfLoop region 2 [l] 1 [] = Outcome.ok
      [{ region := region, start := (pySplit l).getD 0 "",
         end_ := (pySplit l).getD 1 "", strand := "+", repeat_id := 1,
         score := score, repeat_consensus := (pySplit l).getD 13 "" }] ↔
      trfAccept period copy_number percent_matches score) ∧
    (¬ trfAccept period copy_number percent_matches score →
      trfLoop region 2 [l] 1 [] = Outcome.ok []) := by
  simp only [List.getD_eq_getElem?_getD] at hp hc hm hs
  simp [List.getElem?_eq_getElem, h3] at hp hc hm hs
  by_cases ha : trfAccept period copy_number percent_matches score
  · have hloop : trfLoop region 2 [l] 1 [] = Outcome.ok
        [{ region := region, start := (pySplit l).getD 0 "",
           end_ := (pySplit l).getD 1 "", strand := "+", repeat_id := 1,
           score := score, repeat_consensus := (pySplit l).getD 13 "" }] := by
      simp [trfLoop, h1, h2, h3, hp, hc, hm, hs, ha]
    exact ⟨by simp [hloop, ha], fun hna => absurd ha hna⟩
  · have hloop : trfLoop region 2 [l] 1 [] = Outcome.ok [] := by
      simp [trfLoop, h1, h2, h3, hp, hc, hm, hs, ha]
    refine ⟨⟨fun hcon => ?_, fun hcon => absurd hcon ha⟩, fun _ => hloop⟩
    rw [hloop] at hcon
    simp at hcon

/-- C6 witness: the filter evaluated on a concrete 15-field line with
score 45, percent_matches 85, copy_number 3, period 8 (accepted by the first
disjunct) and on the same line with period 12 (rejected by both). -/
theorem trf_filter_iff_witness :
    ((trfLoop "chr1" 2 ["1 100 8 3.0 16 85 5 45 30 20 30 20 1.92 ACGT ACGTACGT"] 1 [] =
      Outcome.ok
        [{ region := "chr1",
           start := (pySplit "1 100 8 3.0 16 85 5 45 30 20 30 20 1.92 ACGT ACGTACGT").getD 0 "",
           end_ := (pySplit "1 100 8 3.0 16 85 5 45 30 20 30 20 1.92 ACGT ACGTACGT").getD 1 "",
           strand := "+", repeat_id := 1, score := 45,
           repeat_consensus := (pySplit "1 100 8 3.0 16 85 5 45 30 20 30 20 1.92 ACGT ACGTACGT").getD 13 "" }] ↔
      trfAccept 8 3 85 45) ∧
    (¬ trfAccept 8 3 85 45 →
      trfLoop "chr1" 2 ["1 100 8 3.0 16 85 5 45 30 20 30 20 1.92 ACGT ACGTACGT"] 1 [] =
        Outcome.ok []) ∧
    trfAccept 8 3 85 45) ∧
    ((trfLoop "chr1" 2 ["1 100 12 3.0 16 85 5 45 30 20 30 20 1.92 ACGT ACGTACGT"] 1 [] =
      Outcome.ok
        [{ region := "chr1",
           start := (pySplit "1 100 12 3.0 16 85 5 45 30 20 30 20 1.92 ACGT ACGTACGT").getD 0 "",
           end_ := (pySplit "1 100 12 3.0 16 85 5 45 30 20 30 20 1.92 ACGT ACGTACGT").getD 1 "",
           strand := "+", repeat_id := 1, score := 45,
           repeat_consensus := (pySplit "1 100 12 3.0 16 85 5 45 30 20 30 20 1.92 ACGT ACGTACGT").getD 13 "" }] ↔
      trfAccept 12 3 85 45) ∧
    (¬ trfAccept 12 3 85 45 →
      trfLoop "chr1" 2 ["1 100 12 3.0 16 85 5 45 30 20 30 20 1.92 ACGT ACGTACGT"] 1 [] =
        Outcome.ok []) ∧
    ¬ trfAccept 12 3 85 45) :=
  ⟨⟨(trf_filter_iff "chr1" "1 100 8 3.0 16 85 5 45 30 20 30 20 1.92 ACGT ACGTACGT"
        (by decide) (by decide) (by decide) 8 3 85 45
        (by decide) (by decide) (by decide) (by decide)).1,
    (trf_filter_iff "chr1" "1 100 8 3.0 16 85 5 45 30 20 30 20 1.92 ACGT ACGTACGT"
        (by decide) (by decide) (by decide) 8 3 85 45
        (by decide) (by decide) (by decide) (by decide)).2,
    by decide⟩,
   ⟨(trf_filter_iff "chr1" "1 100 12 3.0 16 85 5 45 30 20 30 20 1.92 ACGT ACGTACGT"
        (by decide) (by decide) (by decide) 12 3 85 45
        (by decide) (by decide) (by decide) (by decide)).1,
    (trf_filter_iff "chr1" "1 100 12 3.0 16 85 5 45 30 20 30 20 1.92 ACGT ACGTACGT"
        (by decide) (by decide) (by decide) 12 3 85 45
        (by decide) (by decide) (by decide) (by decide)).2,
    by decide⟩⟩

/-- C7: a LowComplexity input line on which the regex search finds the shape
`<int> - <int>` yields exactly one canonical record, with start the first
integer plus 1, end the second integer plus 1, strand `+`, and `repeat_id`
its only attribute; in particular `create_dust_gtf` on the one-line file
`12 - 45` produces the single record with start 13, end 46, strand `+`. -/
theorem dust_line_one_record (region l : String) (rest : List String)
    (repeat_count : Nat) (acc : List DustRecord) (a b : Nat) (h1 : ¬ l = "")
    (h2 : dustSearch l.data = some (a, b)) :
    dustLoop region (l :: rest) repeat_count acc =
      dustLoop region rest (repeat_count + 1)
        ({ region := region, start := a + 1, end_ := b + 1, strand := "+",
           repeat_id := repeat_count } :: acc) ∧
    create_dust_gtf region (some ["12 - 45"]) =
      Outcome.ok [{ region := region, start := 13, end_ := 46, strand := "+",
                     repeat_id := 1 }] := by
  constructor
  · simp [dustLoop, h1, h2]
  · rfl

/-- C7 witness: the step property evaluated on the line `12 - 45` in region
`chr1`. -/
theorem dust_line_one_record_witness :
    (dustLoop "chr1" ["12 - 45"] 1 [] =
      dustLoop "chr1" [] (1 + 1)
        ({ region := "chr1", start := 12 + 1, end_ := 45 + 1, strand := "+",
           repeat_id := 1 } :: []) ∧
    create_dust_gtf "chr1" (some ["12 - 45"]) =
      Outcome.ok [{ region := "chr1", start := 13, end_ := 46, strand := "+",
                     repeat_id := 1 }]) :=
  dust_line_one_record "chr1" "12 - 45" [] 1 [] 12 45 (by decide) (by decide)

/-- The Masker per-line record always carries the current counter value as
its `repeat_id`, whichever strand branch is taken. -/
lemma rmRecordOfFields_repeat_id (region : String) (results : List String)
    (repeat_count : Nat) :
    (rmRecordOfFields region results repeat_count).repeat_id = repeat_count := by
  simp only [rmRecordOfFields]
  split <;> rfl

/-- Invariant of the Masker parse loop: a completed run extends the already
accumulated records with a tail whose `repeat_id`s count up from the current
counter value. -/
lemma rmLoop_ids (region : String) : ∀ (fuel : Nat) (lines : List String)
    (repeat_count : Nat) (acc out : List RMRecord),
    rmLoop region fuel lines repeat_count acc = Outcome.ok out →
    ∃ tail, out = acc.reverse ++ tail ∧
      tail.map (fun r => r.repeat_id) = List.range' repeat_count tail.length := by
  intro fuel
  induction fuel with
  | zero =>
    intro lines repeat_count acc out h
    cases lines with
    | nil =>
      simp [rmLoop] at h
      exact ⟨[], by simp [h], by simp⟩
    | cons l rest => simp [rmLoop] at h
  | succ n ih =>
    intro lines repeat_count acc out h
    cases lines with
    | nil =>
      simp [rmLoop] at h
      exact ⟨[], by simp [h], by simp⟩
    | cons l rest =>
      rw [rmLoop] at h
      by_cases hl : l = ""
      · simp [hl] at h
        exact ⟨[], by simp [h], by simp⟩
      · by_cases hc : rmCandidate l
        · by_cases hlen : (starDrop (pySplit l)).length = 15
          · simp only [hl, hc, hlen, if_false, if_true, not_true, ite_false,
              ite_true] at h
            obtain ⟨tail, h4, h5⟩ :=
              ih rest (repeat_count + 1)
                (rmRecordOfFields region (starDrop (pySplit l)) repeat_count :: acc)
                out h
            refine ⟨rmRecordOfFields region (starDrop (pySplit l)) repeat_count :: tail,
              ?_, ?_⟩
            · simp only [List.reverse_cons] at h4
              simpa [List.append_assoc] using h4
            · simp [h5, rmRecordOfFields_repeat_id, List.range'_succ]
          · simp only [hl, hc, hlen, if_false, if_true, not_false_iff,
              ite_true, ite_false] at h
            exact ih (l :: rest) repeat_count acc out h
        · simp only [hl, hc, if_false, ite_false] at h
          exact ih rest repeat_count acc out h

/-- Invariant of the TandemRepeat parse loop, as in `rmLoop_ids`. -/
lemma trfLoop_ids (region : String) : ∀ (fuel : Nat) (lines : List String)
    (repeat_count : Nat) (acc out : List TRFRecord),
    trfLoop region fuel lines repeat_count acc = Outcome.ok out →
    ∃ tail, out = acc.reverse ++ tail ∧
      tail.map (fun r => r.repeat_id) = List.range' repeat_count tail.length := by
  intro fuel
  induction fuel with
  | zero =>
    intro lines repeat_count acc out h
    cases lines with
    | nil =>
      simp [trfLoop] at h
      exact ⟨[], by simp [h], by simp⟩
    | cons l rest => simp [trfLoop] at h
  | succ n ih =>
    intro lines repeat_count acc out h
    cases lines with
    | nil =>
      simp [trfLoop] at h
      exact ⟨[], by simp [h], by simp⟩
    | cons l rest =>
      rw [trfLoop] at h
      by_cases hl : l = ""
      · simp [hl] at h
        exact ⟨[], by simp [h], by simp⟩
      · by_cases hc : trfCandidate l
        · by_cases hlen : (pySplit l).length = 15
          · simp only [hl, hc, hlen, not_true, if_false, if_true, ite_true,
              ite_false] at h
            cases hp2 : pyFloat ((pySplit l).getD 2 "") with
            | none => rw [hp2] at h; simp at h
            | some period =>
              cases hp3 : pyFloat ((pySplit l).getD 3 "") with
              | none => rw [hp2, hp3] at h; simp at h
              | some copy_number =>
                cases hp5 : pyFloat ((pySplit l).getD 5 "") with
                | none => rw [hp2, hp3, hp5] at h; simp at h
                | some percent_matches =>
                  cases hp7 : pyFloat ((pySplit l).getD 7 "") with
                  | none => rw [hp2, hp3, hp5, hp7] at h; simp at h
                  | some score =>
                    rw [hp2, hp3, hp5, hp7] at h
                    simp only [] at h
                    by_cases ha : trfAccept period copy_number percent_matches score
                    · rw [if_pos ha] at h
                      obtain ⟨tail, h4, h5⟩ := ih rest (repeat_count + 1) _ out h
                      refine ⟨({ region := region, start := (pySplit l).getD 0 "", end_ := (pySplit l).getD 1 "", strand := "+", repeat_id := repeat_count, score := score, repeat_consensus := (pySplit l).getD 13 "" } : TRFRecord) :: tail, ?_, ?_⟩
                      · simp only [List.reverse_cons] at h4
                        simpa [List.append_assoc] using h4
                      · simp [h5, List.range'_succ]
                    · rw [if_neg ha] at h
                      exact ih rest repeat_count acc out h
          · simp only [hl, hc, hlen, if_false, if_true, not_false_iff,
              ite_true, ite_false] at h
            exact ih (l :: rest) repeat_count acc out h
        · simp only [hl, hc, if_false, ite_false] at h
          exact ih rest repeat_count acc out h

/-- Invariant of the LowComplexity parse loop, as in `rmLoop_ids`. -/
lemma dustLoop_ids (region : String) : ∀ (lines : List String)
    (repeat_count : Nat) (acc out : List DustRecord),
    dustLoop region lines repeat_count acc = out →
    ∃ tail, out = acc.reverse ++ tail ∧
      tail.map (fun r => r.repeat_id) = List.range' repeat_count tail.length := by
  intro lines
  induction lines with
  | nil =>
    intro repeat_count acc out h
    simp [dustLoop] at h
    exact ⟨[], by simp [h], by simp⟩
  | cons l rest ih =>
    intro repeat_count acc out h
    rw [dustLoop] at h
    by_cases hl : l = ""
    · simp [hl] at h
      exact ⟨[], by simp [h], by simp⟩
    · cases hm : dustSearch l.data with
      | none =>
        rw [hm] at h
        simp only [hl, ite_false, if_false] at h
        exact ih repeat_count acc out h
      | some ab =>
        obtain ⟨a, b⟩ := ab
        rw [hm] at h
        simp only [hl, ite_false, if_false] at h
        obtain ⟨tail, h4, h5⟩ := ih (repeat_count + 1) _ out h
        refine ⟨({ region := region, start := a + 1, end_ := b + 1, strand := "+", repeat_id := repeat_count } : DustRecord) :: tail, ?_, ?_⟩
        · simp only [List.reverse_cons] at h4
          simpa [List.append_assoc] using h4
        · simp [h5, List.range'_succ]

/-- C8: in every tool variant's parse pass the `repeat_count` counter starts
at 1 and is incremented by exactly 1 per emitted record, so a completed pass
emits records whose `repeat_id`s are the consecutive integers `1..n` in
emission order; the counter is reset for every pass, so the ids are
slice-local, not unique across slices. -/
theorem repeat_ids_consecutive (region : String) (fuel : Nat)
    (lines : List String) (out1 : List RMRecord) (out2 : List TRFRecord)
    (out3 : List DustRecord) :
    (create_repeatmasker_gtf region fuel (some lines) = Outcome.ok out1 →
      out1.map (fun r => r.repeat_id) = List.range' 1 out1.length) ∧
    (create_trf_gtf region fuel (some lines) = Outcome.ok out2 →
      out2.map (fun r => r.repeat_id) = List.range' 1 out2.length) ∧
    (create_dust_gtf region (some lines) = Outcome.ok out3 →
      out3.map (fun r => r.repeat_id) = List.range' 1 out3.length) := by
  refine ⟨fun h => ?_, fun h => ?_, fun h => ?_⟩
  · obtain ⟨tail, h1, h2⟩ := rmLoop_ids region fuel lines 1 [] out1 h
    simp only [List.reverse_nil, List.nil_append] at h1
    rw [h1]
    exact h2
  · obtain ⟨tail, h1, h2⟩ := trfLoop_ids region fuel lines 1 [] out2 h
    simp only [List.reverse_nil, List.nil_append] at h1
    rw [h1]
    exact h2
  · simp only [create_dust_gtf, Outcome.ok.injEq] at h
    obtain ⟨tail, h1, h2⟩ := dustLoop_ids region lines 1 [] out3 h
    simp only [List.reverse_nil, List.nil_append] at h1
    rw [h1]
    exact h2

/-- C8 witness: the consecutive numbering evaluated on concrete two-record
Masker and LowComplexity passes and a one-record TandemRepeat pass. -/
theorem repeat_ids_consecutive_witness :
    (create_repeatmasker_gtf "chr1" 5
      (some ["239 29.4 2.0 0.0 chr1 1 100 (0) + AluYk2 SINE/Alu 2 98 (3) 5", "463 1.3 0.6 1.7 chr1 1001 1524 (0) C L1M5 LINE/L1 2 98 (3) 8"]) =
      Outcome.ok
        [{ region := "chr1", start := "1", end_ := "100", strand := "+", repeat_id := 1, repeat_name := "AluYk2", repeat_class := "SINE/Alu", repeat_start := "2", repeat_end := "98", score := "239" },
         { region := "chr1", start := "1001", end_ := "1524", strand := "-", repeat_id := 2, repeat_name := "L1M5", repeat_class := "LINE/L1", repeat_start := "(3)", repeat_end := "98", score := "463" }] ∧
      List.map (fun r => r.repeat_id)
        ([{ region := "chr1", start := "1", end_ := "100", strand := "+", repeat_id := 1, repeat_name := "AluYk2", repeat_class := "SINE/Alu", repeat_start := "2", repeat_end := "98", score := "239" },
          { region := "chr1", start := "1001", end_ := "1524", strand := "-", repeat_id := 2, repeat_name := "L1M5", repeat_class := "LINE/L1", repeat_start := "(3)", repeat_end := "98", score := "463" }] : List RMRecord) =
        List.range' 1 2) ∧
    (create_trf_gtf "chr1" 5
      (some ["1 100 8 3.0 16 85 5 45 30 20 30 20 1.92 ACGT ACGTACGT"]) =
      Outcome.ok
        [{ region := "chr1", start := "1", end_ := "100", strand := "+", repeat_id := 1, score := 45, repeat_consensus := "ACGT" }] ∧
      List.map (fun r => r.repeat_id)
        ([{ region := "chr1", start := "1", end_ := "100", strand := "+", repeat_id := 1, score := 45, repeat_consensus := "ACGT" }] : List TRFRecord) =
        List.range' 1 1) ∧
    (create_dust_gtf "chr1" (some ["12 - 45", "no repeats here", "3 - 5"]) =
      Outcome.ok
        [{ region := "chr1", start := 13, end_ := 46, strand := "+", repeat_id := 1 },
         { region := "chr1", start := 4, end_ := 6, strand := "+", repeat_id := 2 }] ∧
      List.map (fun r => r.repeat_id)
        ([{ region := "chr1", start := 13, end_ := 46, strand := "+", repeat_id := 1 },
          { region := "chr1", start := 4, end_ := 6, strand := "+", repeat_id := 2 }] : List DustRecord) =
        List.range' 1 2) :=
  ⟨⟨by decide,
    (repeat_ids_consecutive "chr1" 5
      ["239 29.4 2.0 0.0 chr1 1 100 (0) + AluYk2 SINE/Alu 2 98 (3) 5", "463 1.3 0.6 1.7 chr1 1001 1524 (0) C L1M5 LINE/L1 2 98 (3) 8"]
      [{ region := "chr1", start := "1", end_ := "100", strand := "+", repeat_id := 1, repeat_name := "AluYk2", repeat_class := "SINE/Alu", repeat_start := "2", repeat_end := "98", score := "239" },
       { region := "chr1", start := "1001", end_ := "1524", strand := "-", repeat_id := 2, repeat_name := "L1M5", repeat_class := "LINE/L1", repeat_start := "(3)", repeat_end := "98", score := "463" }]
      [] []).1 (by decide)⟩,
   ⟨by decide,
    (repeat_ids_consecutive "chr1" 5
      ["1 100 8 3.0 16 85 5 45 30 20 30 20 1.92 ACGT ACGTACGT"] []
      [{ region := "chr1", start := "1", end_ := "100", strand := "+", repeat_id := 1, score := 45, repeat_consensus := "ACGT" }]
      []).2.1 (by decide)⟩,
   ⟨by decide,
    (repeat_ids_consecutive "chr1" 5 ["12 - 45", "no repeats here", "3 - 5"]
      [] []
      [{ region := "chr1", start := 13, end_ := 46, strand := "+", repeat_id := 1 },
       { region := "chr1", start := 4, end_ := 6, strand := "+", repeat_id := 2 }]).2.2
      (by decide)⟩⟩

/-- Reading below the old length after allocating a fresh list is unchanged. -/
lemma Heap.get_append_lt {α : Type} (h : Heap α) (xs : List α) (a : Nat)
    (ha : a < List.length h) : Heap.get (h ++ [xs]) a = Heap.get h a := by
  simp only [Heap.get]
  exact List.getD_append h [xs] [] a ha

/-- Reading the freshly allocated address yields the allocated list. -/
lemma Heap.get_append_self {α : Type} (h : Heap α) (xs : List α) :
    Heap.get (h ++ [xs]) (List.length h) = xs := by
  simp [Heap.get, List.getD_eq_getElem?_getD, List.getElem?_concat_length]

/-- Overwriting one address leaves every other address unchanged. -/
lemma Heap.get_put_ne {α : Type} (h : Heap α) (i a : Nat) (xs : List α)
    (hne : ¬ a = i) : Heap.get (Heap.put h i xs) a = Heap.get h a := by
  simp only [Heap.get, Heap.put, List.getD_eq_getElem?_getD]
  rw [List.getElem?_set_ne (show i ≠ a from fun hh => hne hh.symm)]

/-- Reading an overwritten in-range address yields the new contents. -/
lemma Heap.get_put_self {α : Type} (h : Heap α) (i : Nat) (xs : List α)
    (hi : i < List.length h) : Heap.get (Heap.put h i xs) i = xs := by
  simp [Heap.get, Heap.put, List.getD_eq_getElem?_getD,
    List.getElem?_set_self hi]

/-- C10: each per-slice worker copies the shared command template before
appending (Masker, LowComplexity) or substituting into slot 1 (TandemRepeat)
the slice's input path, so the template object is unchanged after every
invocation, and the command actually run is the template plus the path. -/
theorem workers_copy_template (hs : Heap String) (ho : Heap (Option String))
    (a1 a2 a3 : Nat) (p1 p2 : String) (p3 : String)
    (ha1 : a1 < List.length hs) (ha2 : a2 < List.length hs)
    (ha3 : a3 < List.length ho) :
    Heap.get (multiprocess_repeatmasker_cmd hs a1 p1).1 a1 = Heap.get hs a1 ∧
    Heap.get (multiprocess_repeatmasker_cmd hs a1 p1).1
      (multiprocess_repeatmasker_cmd hs a1 p1).2 = Heap.get hs a1 ++ [p1] ∧
    Heap.get (multiprocess_dust_cmd hs a2 p2).1 a2 = Heap.get hs a2 ∧
    Heap.get (multiprocess_dust_cmd hs a2 p2).1
      (multiprocess_dust_cmd hs a2 p2).2 = Heap.get hs a2 ++ [p2] ∧
    Heap.get (multiprocess_trf_cmd ho a3 p3).1 a3 = Heap.get ho a3 ∧
    Heap.get (multiprocess_trf_cmd ho a3 p3).1
      (multiprocess_trf_cmd ho a3 p3).2 =
      (Heap.get ho a3).set 1 (some p3) := by
  refine ⟨?_, ?_, ?_, ?_, ?_, ?_⟩
  · show Heap.get (Heap.append1 (hs ++ [Heap.get hs a1]) (List.length hs) p1) a1 =
      Heap.get hs a1
    rw [Heap.append1, Heap.get_put_ne _ _ _ _ (by omega),
      Heap.get_append_lt _ _ _ ha1]
  · show Heap.get (Heap.append1 (hs ++ [Heap.get hs a1]) (List.length hs) p1)
      (List.length hs) = Heap.get hs a1 ++ [p1]
    rw [Heap.append1, Heap.get_put_self _ _ _ (by simp), Heap.get_append_self]
  · show Heap.get (Heap.append1 (hs ++ [Heap.get hs a2]) (List.length hs) p2) a2 =
      Heap.get hs a2
    rw [Heap.append1, Heap.get_put_ne _ _ _ _ (by omega),
      Heap.get_append_lt _ _ _ ha2]
  · show Heap.get (Heap.append1 (hs ++ [Heap.get hs a2]) (List.length hs) p2)
      (List.length hs) = Heap.get hs a2 ++ [p2]
    rw [Heap.append1, Heap.get_put_self _ _ _ (by simp), Heap.get_append_self]
  · show Heap.get (Heap.setItem (ho ++ [Heap.get ho a3]) (List.length ho) 1
      (some p3)) a3 = Heap.get ho a3
    rw [Heap.setItem, Heap.get_put_ne _ _ _ _ (by omega),
      Heap.get_append_lt _ _ _ ha3]
  · show Heap.get (Heap.setItem (ho ++ [Heap.get ho a3]) (List.length ho) 1
      (some p3)) (List.length ho) = (Heap.get ho a3).set 1 (some p3)
    rw [Heap.setItem, Heap.get_put_self _ _ _ (by simp), Heap.get_append_self]

/-- C10 witness: the template-preservation evaluated on a concrete heap with
the three templates of the `run_*` entry points. -/
theorem workers_copy_template_witness :
    Heap.get (multiprocess_repeatmasker_cmd
      [["RepeatMasker", "-nolow", "-lib", "homo"], ["dustmasker", "-in"]] 0
      "chr1.rs1.re5000.fa").1 0 =
      Heap.get [["RepeatMasker", "-nolow", "-lib", "homo"], ["dustmasker", "-in"]] 0 ∧
    Heap.get (multiprocess_repeatmasker_cmd
      [["RepeatMasker", "-nolow", "-lib", "homo"], ["dustmasker", "-in"]] 0
      "chr1.rs1.re5000.fa").1
      (multiprocess_repeatmasker_cmd
        [["RepeatMasker", "-nolow", "-lib", "homo"], ["dustmasker", "-in"]] 0
        "chr1.rs1.re5000.fa").2 =
      Heap.get [["RepeatMasker", "-nolow", "-lib", "homo"], ["dustmasker", "-in"]] 0 ++
        ["chr1.rs1.re5000.fa"] ∧
    Heap.get (multiprocess_dust_cmd
      [["RepeatMasker", "-nolow", "-lib", "homo"], ["dustmasker", "-in"]] 1
      "chr1.rs1.re5000.fa").1 1 =
      Heap.get [["RepeatMasker", "-nolow", "-lib", "homo"], ["dustmasker", "-in"]] 1 ∧
    Heap.get (multiprocess_dust_cmd
      [["RepeatMasker", "-nolow", "-lib", "homo"], ["dustmasker", "-in"]] 1
      "chr1.rs1.re5000.fa").1
      (multiprocess_dust_cmd
        [["RepeatMasker", "-nolow", "-lib", "homo"], ["dustmasker", "-in"]] 1
        "chr1.rs1.re5000.fa").2 =
      Heap.get [["RepeatMasker", "-nolow", "-lib", "homo"], ["dustmasker", "-in"]] 1 ++
        ["chr1.rs1.re5000.fa"] ∧
    Heap.get (multiprocess_trf_cmd [[some "trf", none, some "2"]] 0
      "chr1.rs1.re5000.fa").1 0 =
      Heap.get [[some "trf", none, some "2"]] 0 ∧
    Heap.get (multiprocess_trf_cmd [[some "trf", none, some "2"]] 0
      "chr1.rs1.re5000.fa").1
      (multiprocess_trf_cmd [[some "trf", none, some "2"]] 0
        "chr1.rs1.re5000.fa").2 =
      (Heap.get [[some "trf", none, some "2"]] 0).set 1 (some "chr1.rs1.re5000.fa") :=
  workers_copy_template
    [["RepeatMasker", "-nolow", "-lib", "homo"], ["dustmasker", "-in"]]
    [[some "trf", none, some "2"]] 0 1 0 "chr1.rs1.re5000.fa"
    "chr1.rs1.re5000.fa" "chr1.rs1.re5000.fa" (by decide) (by decide) (by decide)

/-- After the defaulting at source lines 43-44 the effective library string
is never empty, so the `if not library:` branch at source line 64 can never
be taken. -/
lemma rm_effective_library_nonempty (library : Option String) :
    ¬ (if pyFalsy library then "homo" else pyVal library) = "" := by
  cases library with
  | none => simp [pyFalsy]
  | some t => by_cases ht : t = "" <;> simp [pyFalsy, pyVal, ht]

/-- C9: because `library` is defaulted to `homo` before the command-building
branch, the species branch of `run_repeatmasker_regions` is unreachable:
whenever the function dispatches work, the generic command is the `-lib`
form (with `-species` nowhere in it, barring pathological parameter values
excluded by the side hypotheses), and the `species` parameter never affects
the result. -/
theorem rm_species_branch_unreachable
    (repeatmasker_path library species species2 : Option String)
    (main_output_dir : String) (file_exists : String → Bool)
    (check_gtf_content : String → String → Nat) (slice_ids : List SliceId)
    (cmd : List String) (dispatched : List SliceId)
    (h : run_repeatmasker_regions repeatmasker_path library species
      main_output_dir file_exists check_gtf_content slice_ids =
      RunOutcome.ran cmd dispatched)
    (hp : ¬ (if pyFalsy repeatmasker_path then "RepeatMasker"
      else pyVal repeatmasker_path) = "-species")
    (hl : ¬ (if pyFalsy library then "homo" else pyVal library) = "-species")
    (hd : ¬ (main_output_dir ++ "/repeatmasker_output") = "-species") :
    run_repeatmasker_regions repeatmasker_path library species main_output_dir
      file_exists check_gtf_content slice_ids =
    run_repeatmasker_regions repeatmasker_path library species2 main_output_dir
      file_exists check_gtf_content slice_ids ∧
    cmd = [(if pyFalsy repeatmasker_path then "RepeatMasker"
        else pyVal repeatmasker_path), "-nolow", "-lib",
      (if pyFalsy library then "homo" else pyVal library), "-engine",
      "crossmatch", "-dir", main_output_dir ++ "/repeatmasker_output"] ∧
    "-lib" ∈ cmd ∧ ¬ "-species" ∈ cmd := by
  have hlib := rm_effective_library_nonempty library
  have hcmd : cmd = [(if pyFalsy repeatmasker_path then "RepeatMasker"
      else pyVal repeatmasker_path), "-nolow", "-lib",
      (if pyFalsy library then "homo" else pyVal library), "-engine",
      "crossmatch", "-dir", main_output_dir ++ "/repeatmasker_output"] := by
    simp only [run_repeatmasker_regions, hlib, if_false, ite_false] at h
    by_cases hfe : file_exists
        (main_output_dir ++ "/repeatmasker_output" ++ "/annotation.gtf") = true
    · rw [if_pos hfe] at h
      by_cases hct : check_gtf_content
          (main_output_dir ++ "/repeatmasker_output" ++ "/annotation.gtf") "repeat" > 0
      · rw [if_pos hct] at h
        exact absurd h (by simp)
      · rw [if_neg hct] at h
        rw [RunOutcome.ran.injEq] at h
        exact h.1.symm
    · rw [if_neg hfe] at h
      rw [RunOutcome.ran.injEq] at h
      exact h.1.symm
  refine ⟨?_, hcmd, ?_, ?_⟩
  · simp only [run_repeatmasker_regions, hlib, if_false, ite_false]
  · rw [hcmd]
    simp
  · rw [hcmd]
    intro hmem
    simp only [List.mem_cons, List.not_mem_nil, or_false] at hmem
    rcases hmem with hx | hx | hx | hx | hx | hx | hx | hx
    · exact hp hx.symm
    · exact absurd hx (by decide)
    · exact absurd hx (by decide)
    · exact hl hx.symm
    · exact absurd hx (by decide)
    · exact absurd hx (by decide)
    · exact absurd hx (by decide)
    · exact hd hx.symm

/-- C9 witness: species-independence and the `-lib` command shape evaluated
at concrete parameters (no library, species `mus` versus no species). -/
theorem rm_species_branch_unreachable_witness :
    run_repeatmasker_regions none none (some "mus") "/out" (fun _ => false)
      (fun _ _ => 0) [("chr1", 1, 5)] =
    run_repeatmasker_regions none none none "/out" (fun _ => false)
      (fun _ _ => 0) [("chr1", 1, 5)] ∧
    ["RepeatMasker", "-nolow", "-lib", "homo", "-engine", "crossmatch",
      "-dir", "/out" ++ "/repeatmasker_output"] =
      ["RepeatMasker", "-nolow", "-lib", "homo", "-engine", "crossmatch",
        "-dir", "/out" ++ "/repeatmasker_output"] ∧
    "-lib" ∈ ["RepeatMasker", "-nolow", "-lib", "homo", "-engine",
      "crossmatch", "-dir", "/out" ++ "/repeatmasker_output"] ∧
    ¬ "-species" ∈ ["RepeatMasker", "-nolow", "-lib", "homo", "-engine",
      "crossmatch", "-dir", "/out" ++ "/repeatmasker_output"] :=
  rm_species_branch_unreachable none none (some "mus") none "/out"
    (fun _ => false) (fun _ _ => 0) [("chr1", 1, 5)]
    ["RepeatMasker", "-nolow", "-lib", "homo", "-engine", "crossmatch",
      "-dir", "/out" ++ "/repeatmasker_output"] [("chr1", 1, 5)]
    (by decide) (by decide) (by decide) (by decide)
